import Mathlib

/-!
Verification of the robo_spritz tracking-and-actuation core.

Shallow embedding of:
  * `direction_module.py` (`Direction_Module.get_direction`): face-offset
    quantizer producing a discrete direction signal;
  * `maestro_linux_driver.py` (`Controller`): process-invocation servo driver
    with validation, speed-to-pulse interpolation and timed moves;
  * `maestro_controller.py` (`MaestroServoController`): serial servo driver
    with `rotate`, `stop`, `stop_all`, `set_position`;
  * `control_water_gun.py` (`main`): the rate-limit guard of the control loop.

Python ints are modelled as `Int` (pixel coordinates and box sizes, which the
detector reports as non-negative machine ints, as `Nat`); Python floats are
modelled as `Rat`, with the Python built-in `round` (ties to even) as
`pyRound` and `int(...)` truncation as `pyInt`; a raised Python exception is
modelled by `Except` or an error component, and a command sent to the
hardware backend by a `Cmd` value.
-/

/-- A detected bounding box `(x, y, w, h)` in frame pixel coordinates, as
reported by `cv2.CascadeClassifier.detectMultiScale` (non-negative ints). -/
structure Box where
  x : Nat
  y : Nat
  w : Nat
  h : Nat
deriving DecidableEq, Repr

namespace DirectionModule

/-- One step of the face loop in `Direction_Module.get_direction`
(direction_module.py lines 61-65): the center `(x + w // 2, y + h // 2)` of
the first detected face is kept, later faces are ignored. -/
def pickFace (acc : Option (Nat × Nat)) (b : Box) : Option (Nat × Nat) :=
  match acc with
  | Option.none => some (b.x + b.w / 2, b.y + b.h / 2)
  | some c => some c

/-- The face-center accumulation loop over all detected faces
(direction_module.py lines 58-65), starting from `None`. -/
def faceCenter (faces : List Box) : Option (Nat × Nat) :=
  faces.foldl pickFace Option.none

/-- `Direction_Module.get_direction` (direction_module.py lines 29-85),
from the point where the frame dimensions and the detected face list are in
hand: frame center by integer division, first-face center, pixel offsets,
then per-axis quantization against the tolerance band.  Returns `(h, v)`. -/
def get_direction (tolerance : Int) (frame_width frame_height : Nat)
    (faces : List Box) : Int × Int :=
  let frame_center_x : Int := (frame_width / 2 : Nat)
  let frame_center_y : Int := (frame_height / 2 : Nat)
  match faceCenter faces with
  | Option.none => (0, 0)
  | some (fx, fy) =>
    let offset_x : Int := (fx : Int) - frame_center_x
    let offset_y : Int := (fy : Int) - frame_center_y
    let hDir : Int :=
      if |offset_x| > tolerance then (if offset_x > 0 then 1 else -1) else 0
    let vDir : Int :=
      if |offset_y| > tolerance then (if offset_y < 0 then 1 else -1) else 0
    (hDir, vDir)

end DirectionModule

/-! ## Python numeric helpers -/

/-- The Python built-in `round` on a real value: nearest integer, ties going
to the even integer. -/
def pyRound (q : Rat) : Int :=
  if q - ⌊q⌋ = 1 / 2 then (if ⌊q⌋ % 2 = 0 then ⌊q⌋ else ⌊q⌋ + 1)
  else round q

/-- Python `int(...)` on a real value: truncation toward zero. -/
def pyInt (q : Rat) : Int :=
  if 0 ≤ q then ⌊q⌋ else ⌈q⌉

/-- Python `str.lower()`, as a character-wise map (the inputs of interest
are ASCII direction tokens and servo-type names). -/
def pyLower (s : String) : String :=
  String.mk (s.data.map Char.toLower)

/-- Python `str.strip()`: whitespace removed from both ends. -/
def pyStrip (s : String) : String :=
  String.mk
    (((s.data.dropWhile Char.isWhitespace).reverse.dropWhile
      Char.isWhitespace).reverse)

/-! ## maestro_linux_driver.py: `Controller` -/

/-- A Python exception raised by the driver layer. -/
inductive PyErr where
  /-- `ValueError` from argument validation. -/
  | valueError : PyErr
  /-- `RuntimeError` from an unconnected serial controller. -/
  | runtimeError : PyErr
  /-- `KeyboardInterrupt` (or any async exception) during a blocking wait. -/
  | interrupted : PyErr
deriving DecidableEq, Repr

/-- One command handed to the hardware backend: set `channel` to `target`
(the UscCmd `--servo channel,target` invocation, or serial `setTarget`). -/
inductive Cmd where
  | servo (channel : Int) (target : Int) : Cmd
deriving DecidableEq, Repr

/-- The `speed` argument as received by `Controller._scaled_target`: `None`,
a numeric value, or a value `float(...)` rejects with TypeError/ValueError. -/
inductive SpeedArg where
  | none : SpeedArg
  | num (q : Rat) : SpeedArg
  | nonNumeric : SpeedArg
deriving DecidableEq, Repr

namespace Controller

/-- `Controller.FULL_CW_TARGET` (maestro_linux_driver.py line 68). -/
def FULL_CW_TARGET : Int := 4000

/-- `Controller.FULL_CCW_TARGET` (maestro_linux_driver.py line 69). -/
def FULL_CCW_TARGET : Int := 8000

/-- `Controller.STOP_TARGET` (maestro_linux_driver.py line 70). -/
def STOP_TARGET : Int := 5900

/-- The speed coercion at the head of `Controller._scaled_target`
(maestro_linux_driver.py lines 205-210): `None` becomes 1.0, and a value
`float(...)` rejects also becomes 1.0 via the `except` branch. -/
def coerce_speed : SpeedArg → Rat
  | SpeedArg.none => 1
  | SpeedArg.nonNumeric => 1
  | SpeedArg.num q => q

/-- The clamp in `Controller._scaled_target` (maestro_linux_driver.py lines
211-214): `if speed_f < 0.0: speed_f = 0.0 elif speed_f > 1.0: speed_f = 1.0`. -/
def clamp01 (x : Rat) : Rat :=
  if x < 0 then 0 else if x > 1 then 1 else x

/-- `Controller._scaled_target` (maestro_linux_driver.py lines 201-215):
`None` and non-convertible speeds become 1.0, the result is clamped into
[0, 1], then `int(round(stop + (full - stop) * speed_f))`. -/
def scaled_target (stop full : Int) (speed : SpeedArg) : Int :=
  pyRound ((stop : Rat) + ((full : Rat) - (stop : Rat)) * clamp01 (coerce_speed speed))

/-- `Controller.set_servo_target` (maestro_linux_driver.py lines 79-98):
with `validate` set, `_validate_channel` then `_validate_target` raise
`ValueError` on a negative argument before the command is built; otherwise
the `--servo channel,target` command is run.  `Except.ok c` means exactly
the command `c` was sent to the backend; `Except.error` means no backend
interaction happened. -/
def set_servo_target (channel target : Int) (validate : Bool) :
    Except PyErr Cmd :=
  if validate ∧ channel < 0 then Except.error PyErr.valueError
  else if validate ∧ target < 0 then Except.error PyErr.valueError
  else Except.ok (Cmd.servo channel target)

/-- The backend commands observable from one driver call: the sent command
when validation passed, nothing when a fault was raised first. -/
def sentCmds : Except PyErr Cmd → List Cmd
  | Except.ok c => [c]
  | Except.error _ => []

/-- `Controller.move_cw` (maestro_linux_driver.py lines 155-159). -/
def move_cw (channel : Int) (speed : SpeedArg) : Except PyErr Cmd :=
  set_servo_target channel (scaled_target STOP_TARGET FULL_CW_TARGET speed) true

/-- `Controller.move_ccw` (maestro_linux_driver.py lines 161-165). -/
def move_ccw (channel : Int) (speed : SpeedArg) : Except PyErr Cmd :=
  set_servo_target channel (scaled_target STOP_TARGET FULL_CCW_TARGET speed) true

/-- `Controller.stop` (maestro_linux_driver.py lines 167-169). -/
def stop (channel : Int) : Except PyErr Cmd :=
  set_servo_target channel STOP_TARGET true

/-- `Controller.move_step` (maestro_linux_driver.py lines 171-198), as the
list of commands actually sent plus the exception, if any, that escaped.
`duration = Option.none` models `duration is None` (a non-convertible
duration likewise falls to 0 through the `except` branch at line 186);
`interrupted` models an async `KeyboardInterrupt` delivered during the
`time.sleep(duration_f)` call at line 197: the source has no try/finally,
so the commands after the sleep are skipped when it fires. -/
def move_step (channel : Int) (direction : Option String) (speed : SpeedArg)
    (duration : Option Rat) (interrupted : Bool) :
    List Cmd × Option PyErr :=
  let duration_f : Rat := duration.getD 0
  match direction with
  | Option.none => ([], some PyErr.valueError)
  | some d =>
    let dnorm := pyLower (pyStrip d)
    let firstCmd : Except PyErr Cmd :=
      if dnorm = "cw" ∨ dnorm = "clockwise" then move_cw channel speed
      else if dnorm = "ccw" ∨ dnorm = "counterclockwise"
          ∨ dnorm = "counter-clockwise" then move_ccw channel speed
      else Except.error PyErr.valueError
    match firstCmd with
    | Except.error e => ([], some e)
    | Except.ok c1 =>
      if duration_f > 0 ∧ interrupted then ([c1], some PyErr.interrupted)
      else
        match stop channel with
        | Except.error e => ([c1], some e)
        | Except.ok c2 => ([c1, c2], Option.none)

end Controller

/-! ## maestro_controller.py: `MaestroServoController` -/

/-- A servo pulse profile `(pulse_min, pulse_neutral, pulse_max)` selected in
`MaestroServoController.__init__` (maestro_controller.py lines 31-41). -/
structure Profile where
  pulse_min : Int
  pulse_neutral : Int
  pulse_max : Int
deriving DecidableEq, Repr

namespace MaestroServoController

/-- Profile selection from `servo_type` (maestro_controller.py lines 29-41):
`"fs90r"` (after lower-casing) picks the FS90R constants (700, 1500, 2300),
anything else the standard constants (4000, 6000, 8000). -/
def mkProfile (servo_type : String) : Profile :=
  if pyLower servo_type = "fs90r" then ⟨700, 1500, 2300⟩
  else ⟨4000, 6000, 8000⟩

/-- `MaestroServoController.stop` (maestro_controller.py lines 122-139):
raises `RuntimeError` when not connected, otherwise sends the neutral pulse
to the channel. -/
def stop (connected : Bool) (p : Profile) (channel : Int) :
    Except PyErr Cmd :=
  if !connected then Except.error PyErr.runtimeError
  else Except.ok (Cmd.servo channel p.pulse_neutral)

/-- `MaestroServoController.rotate` (maestro_controller.py lines 79-113):
connectivity check, direction in {-1, 0, 1}, speed in [0, 100] (a
`ValueError` otherwise — no clamping of speed), direction 0 delegates to
`stop`; otherwise `speed_range = (pulse_max - pulse_neutral) * (speed/100)`,
`position = int(pulse_neutral ± speed_range)`, clamped into
`[pulse_min, pulse_max]`, and sent. -/
def rotate (connected : Bool) (p : Profile) (channel : Int)
    (direction : Int) (speed : Rat) : Except PyErr Cmd :=
  if !connected then Except.error PyErr.runtimeError
  else if ¬(-1 ≤ direction ∧ direction ≤ 1) then Except.error PyErr.valueError
  else if ¬(0 ≤ speed ∧ speed ≤ 100) then Except.error PyErr.valueError
  else if direction = 0 then stop connected p channel
  else
    let speed_range : Rat :=
      ((p.pulse_max : Rat) - (p.pulse_neutral : Rat)) * (speed / 100)
    let position : Int :=
      if direction > 0 then pyInt ((p.pulse_neutral : Rat) + speed_range)
      else pyInt ((p.pulse_neutral : Rat) - speed_range)
    let position : Int := max p.pulse_min (min p.pulse_max position)
    Except.ok (Cmd.servo channel position)

/-- The `for channel in range(24)` sweep inside
`MaestroServoController.stop_all` (maestro_controller.py lines 146-147):
`backend c = false` models `self.controller.setTarget(c, neutral)` raising
on channel `c`.  Returns the channels on which `setTarget` was invoked (in
order, including a failing invocation) and whether the sweep completed:
with no try/except in the loop, an exception aborts the remaining
channels. -/
def sweep (backend : Nat → Bool) : List Nat → List Nat × Bool
  | [] => ([], true)
  | c :: rest =>
    if backend c then
      let r := sweep backend rest
      (c :: r.1, r.2)
    else ([c], false)

/-- `MaestroServoController.stop_all` (maestro_controller.py lines 141-148):
no channel-count parameter; when connected it sweeps the fixed range
`range(24)` sending the neutral target to each channel in turn. -/
def stop_all (connected : Bool) (backend : Nat → Bool) :
    List Nat × Bool :=
  if !connected then ([], false)
  else sweep backend (List.range 24)

/-- `MaestroServoController.set_position` (maestro_controller.py lines
150-169): connectivity check, then the position is clamped by
`max(pulse_min, min(pulse_max, position))` and sent to the channel. -/
def set_position (connected : Bool) (p : Profile) (channel position : Int) :
    Except PyErr Cmd :=
  if !connected then Except.error PyErr.runtimeError
  else Except.ok (Cmd.servo channel (max p.pulse_min (min p.pulse_max position)))

end MaestroServoController

/-! ## control_water_gun.py: the rate-limit guard in `main` -/

namespace ControlWaterGun

/-- One iteration of the `while True` loop in `main`
(control_water_gun.py lines 27-76), restricted to its actuation-gating
state: the state is `(last_movement, actuation cycle times so far)`, and a
cycle at time `t` is skipped (`continue`, lines 42-46) when `delay > 0` and
`t - last_movement < delay`; otherwise the movement commands of lines 50-76
are issued.  The loop body never reassigns `last_movement` (it is set once
at line 25, before the loop), so the first component of the state is
returned unchanged on both paths. -/
def cycle (delay : Rat) (st : Rat × List Rat) (t : Rat) : Rat × List Rat :=
  let last_movement := st.1
  if delay > 0 ∧ t - last_movement < delay then (last_movement, st.2)
  else (last_movement, st.2 ++ [t])

/-- The cycle times at which `main` issues actuation commands, given the
`--delay` value, the loop-entry timestamp `start` (line 25:
`last_movement = datetime.now()`), and the times of the successive frame
cycles. -/
def actuationTimes (delay start : Rat) (times : List Rat) : List Rat :=
  (times.foldl (cycle delay) (start, [])).2

end ControlWaterGun

/-! # Theorems -/

/-! ## Helper lemmas: the quantizer -/

namespace DirectionModule

theorem faceCenter_cons (b : Box) (rest : List Box) :
    faceCenter (b :: rest) = some (b.x + b.w / 2, b.y + b.h / 2) := by
  show List.foldl pickFace (some (b.x + b.w / 2, b.y + b.h / 2)) rest = _
  induction rest with
  | nil => rfl
  | cons c cs ih => exact ih

theorem quantH (t ox : Int) (ht : 0 ≤ t) :
    (if |ox| > t then (if ox > 0 then (1 : Int) else -1) else 0)
      = (if ox > t then 1 else if ox < -t then -1 else 0) := by
  rcases abs_cases ox with ⟨he, hs⟩ | ⟨he, hs⟩ <;> rw [he] <;>
    split_ifs <;> omega

theorem quantV (t oy : Int) (ht : 0 ≤ t) :
    (if |oy| > t then (if oy < 0 then (1 : Int) else -1) else 0)
      = (if oy < -t then 1 else if oy > t then -1 else 0) := by
  rcases abs_cases oy with ⟨he, hs⟩ | ⟨he, hs⟩ <;> rw [he] <;>
    split_ifs <;> omega

end DirectionModule

open DirectionModule

/-! ## Helper lemmas: rounding and interpolation -/

theorem pyRound_intCast (n : Int) : pyRound (n : Rat) = n := by
  unfold pyRound
  rw [Int.floor_intCast]
  have hne : (n : Rat) - n ≠ 1 / 2 := by norm_num
  rw [if_neg hne, round_intCast]

theorem pyRound_le (q : Rat) : (pyRound q : Rat) ≤ q + 1 / 2 := by
  unfold pyRound
  split_ifs with h1 h2
  · linarith [Int.floor_le q]
  · push_cast
    linarith [Int.floor_le q, h1]
  · have := abs_sub_round q
    rw [abs_le] at this
    linarith [this.1]

theorem le_pyRound (q : Rat) : q - 1 / 2 ≤ (pyRound q : Rat) := by
  unfold pyRound
  split_ifs with h1 h2
  · linarith [Int.floor_le q, h1]
  · push_cast
    linarith [Int.floor_le q]
  · have := abs_sub_round q
    rw [abs_le] at this
    linarith [this.2]

theorem pyRound_mono {q r : Rat} (h : q ≤ r) : pyRound q ≤ pyRound r := by
  rcases h.eq_or_lt with heq | hlt
  · rw [heq]
  · by_contra hco
    push_neg at hco
    have hstep : pyRound r + 1 ≤ pyRound q := hco
    have hc : ((pyRound r : Int) : Rat) + 1 ≤ ((pyRound q : Int) : Rat) := by
      exact_mod_cast hstep
    have h1 := pyRound_le q
    have h2 := le_pyRound r
    linarith

/-- An integer lower bound transfers through the half-unit slack of
`pyRound`. -/
theorem le_pyRound_of_le {m : Int} {q : Rat} (h : (m : Rat) ≤ q) :
    m ≤ pyRound q := by
  have h1 := le_pyRound q
  have h2 : (m : Rat) < (pyRound q : Rat) + 1 := by linarith
  have h3 : m < pyRound q + 1 := by exact_mod_cast h2
  omega

/-- An integer upper bound transfers through the half-unit slack of
`pyRound`. -/
theorem pyRound_le_of_le {m : Int} {q : Rat} (h : q ≤ (m : Rat)) :
    pyRound q ≤ m := by
  have h1 := pyRound_le q
  have h2 : (pyRound q : Rat) < (m : Rat) + 1 := by linarith
  have h3 : pyRound q < m + 1 := by exact_mod_cast h2
  omega

namespace Controller

theorem clamp01_nonneg (x : Rat) : 0 ≤ clamp01 x := by
  unfold clamp01; split_ifs <;> linarith

theorem clamp01_le_one (x : Rat) : clamp01 x ≤ 1 := by
  unfold clamp01; split_ifs <;> linarith

theorem clamp01_mono {a b : Rat} (h : a ≤ b) : clamp01 a ≤ clamp01 b := by
  unfold clamp01; split_ifs <;> linarith

/-- The interpolated pulse always lies between the two endpoint targets. -/
theorem scaled_target_bounds (stop full : Int) (s : SpeedArg) :
    min stop full ≤ scaled_target stop full s ∧
      scaled_target stop full s ≤ max stop full := by
  unfold scaled_target
  set u : Rat := clamp01 (coerce_speed s) with hu
  have h0 : 0 ≤ u := clamp01_nonneg _
  have h1 : u ≤ 1 := clamp01_le_one _
  constructor
  · apply le_pyRound_of_le
    rcases le_total stop full with hsf | hfs
    · rw [min_eq_left hsf]
      have hc : (stop : Rat) ≤ (full : Rat) := by exact_mod_cast hsf
      nlinarith
    · rw [min_eq_right hfs]
      have hc : (full : Rat) ≤ (stop : Rat) := by exact_mod_cast hfs
      nlinarith
  · apply pyRound_le_of_le
    rcases le_total stop full with hsf | hfs
    · rw [max_eq_right hsf]
      have hc : (stop : Rat) ≤ (full : Rat) := by exact_mod_cast hsf
      nlinarith
    · rw [max_eq_left hfs]
      have hc : (full : Rat) ≤ (stop : Rat) := by exact_mod_cast hfs
      nlinarith

/-- Speed 0 interpolates to exactly the `stop` endpoint. -/
theorem scaled_target_zero (stop full : Int) :
    scaled_target stop full (SpeedArg.num 0) = stop := by
  have hv : (stop : Rat) + ((full : Rat) - (stop : Rat))
      * clamp01 (coerce_speed (SpeedArg.num 0)) = (stop : Rat) := by
    norm_num [clamp01, coerce_speed]
  rw [scaled_target, hv, pyRound_intCast]

/-- A clamped speed of 1 interpolates to exactly the `full` endpoint. -/
theorem scaled_target_full (stop full : Int) (s : SpeedArg)
    (hs : clamp01 (coerce_speed s) = 1) :
    scaled_target stop full s = full := by
  have hv : (stop : Rat) + ((full : Rat) - (stop : Rat))
      * clamp01 (coerce_speed s) = ((full : Int) : Rat) := by
    rw [hs]; ring
  rw [scaled_target, hv, pyRound_intCast]

theorem clamp_coerce_none : clamp01 (coerce_speed SpeedArg.none) = 1 := by
  norm_num [clamp01, coerce_speed]

theorem clamp_coerce_nonNumeric :
    clamp01 (coerce_speed SpeedArg.nonNumeric) = 1 := by
  norm_num [clamp01, coerce_speed]

theorem clamp_coerce_one : clamp01 (coerce_speed (SpeedArg.num 1)) = 1 := by
  norm_num [clamp01, coerce_speed]

/-- Valid arguments pass validation and the raw target is sent as-is. -/
theorem set_servo_target_ok {channel target : Int} (hc : 0 ≤ channel)
    (ht : 0 ≤ target) :
    set_servo_target channel target true = Except.ok (Cmd.servo channel target) := by
  unfold set_servo_target
  rw [if_neg (by simp; omega), if_neg (by simp; omega)]

/-- `move_cw` on a valid channel sends the clockwise-interpolated target. -/
theorem move_cw_ok (channel : Int) (s : SpeedArg) (h : 0 ≤ channel) :
    move_cw channel s =
      Except.ok (Cmd.servo channel (scaled_target STOP_TARGET FULL_CW_TARGET s)) := by
  unfold move_cw
  apply set_servo_target_ok h
  have hb := (scaled_target_bounds STOP_TARGET FULL_CW_TARGET s).1
  simp only [STOP_TARGET, FULL_CW_TARGET] at hb ⊢
  omega

/-- `move_ccw` on a valid channel sends the counter-clockwise target. -/
theorem move_ccw_ok (channel : Int) (s : SpeedArg) (h : 0 ≤ channel) :
    move_ccw channel s =
      Except.ok (Cmd.servo channel (scaled_target STOP_TARGET FULL_CCW_TARGET s)) := by
  unfold move_ccw
  apply set_servo_target_ok h
  have hb := (scaled_target_bounds STOP_TARGET FULL_CCW_TARGET s).1
  simp only [STOP_TARGET, FULL_CCW_TARGET] at hb ⊢
  omega

/-- `stop` on a valid channel sends the neutral target. -/
theorem stop_ok (channel : Int) (h : 0 ≤ channel) :
    stop channel = Except.ok (Cmd.servo channel STOP_TARGET) := by
  unfold stop
  exact set_servo_target_ok h (by norm_num [STOP_TARGET])

end Controller

namespace MaestroServoController

/-- A sweep over channels on which every backend call succeeds touches every
channel, in order, and completes. -/
theorem sweep_all_ok (backend : Nat → Bool) (h : ∀ c, backend c = true) :
    ∀ l : List Nat, sweep backend l = (l, true) := by
  intro l
  induction l with
  | nil => rfl
  | cons c cs ih => simp [sweep, h c, ih]

end MaestroServoController

/-! ## The claims -/

/-- C1 (confirmed): with at least one detected box, the quantizer follows
the canonical sign rule with the boundary on the centered side: horizontal
is +1 iff `offset_x > tolerance`, -1 iff `offset_x < -tolerance`, else 0;
vertical is +1 iff `offset_y < -tolerance` (target above center), -1 iff
`offset_y > tolerance`, else 0; in particular `|offset| = tolerance` gives
component 0. -/
theorem claim_C1 (tolerance : Int) (frame_width frame_height : Nat)
    (b : Box) (rest : List Box) (ht : 0 ≤ tolerance) :
    get_direction tolerance frame_width frame_height (b :: rest) =
      (let offset_x : Int :=
        ((b.x + b.w / 2 : Nat) : Int) - ((frame_width / 2 : Nat) : Int)
       let offset_y : Int :=
        ((b.y + b.h / 2 : Nat) : Int) - ((frame_height / 2 : Nat) : Int)
       (if offset_x > tolerance then 1
        else if offset_x < -tolerance then -1 else 0,
        if offset_y < -tolerance then 1
        else if offset_y > tolerance then -1 else 0)) := by
  unfold get_direction
  rw [faceCenter_cons]
  exact Prod.ext (quantH tolerance _ ht) (quantV tolerance _ ht)

/-- Witness for C1: the end-to-end scenario of the spec, frame 640×480,
tolerance 10, one box at (380, 190, 40, 40), whose center (400, 210) is
right of and above the frame center (320, 240), giving signal (1, 1). -/
theorem claim_C1_witness :
    get_direction 10 640 480 (⟨380, 190, 40, 40⟩ :: []) =
      (let offset_x : Int :=
        ((380 + 40 / 2 : Nat) : Int) - ((640 / 2 : Nat) : Int)
       let offset_y : Int :=
        ((190 + 40 / 2 : Nat) : Int) - ((480 / 2 : Nat) : Int)
       (if offset_x > 10 then 1
        else if offset_x < -10 then -1 else 0,
        if offset_y < -10 then 1
        else if offset_y > 10 then -1 else 0)) :=
  claim_C1 10 640 480 ⟨380, 190, 40, 40⟩ [] (by norm_num)

/-- C9 (confirmed): an empty detection list yields the centered signal
(0, 0), for every tolerance and frame size; no fault is raised (the
function is total). -/
theorem claim_C9 (tolerance : Int) (frame_width frame_height : Nat) :
    get_direction tolerance frame_width frame_height [] = (0, 0) := rfl

/-- Counterexample for C2: the process-invocation driver does not clamp.
`set_servo_target(0, 9000)` sends the raw target 9000 to the backend, above
the full envelope [4000, 8000] spanned by the configured directional
targets. -/
theorem claim_C2_counterexample :
    Controller.set_servo_target 0 9000 true = Except.ok (Cmd.servo 0 9000) ∧
    Controller.FULL_CCW_TARGET < 9000 ∧ Controller.FULL_CW_TARGET < 9000 :=
  ⟨Controller.set_servo_target_ok (by norm_num) (by norm_num), by decide, by decide⟩

/-- C2 (amended): only the serial controller clamps — `set_position` sends
`max(pulse_min, min(pulse_max, position))`, which lies in
`[pulse_min, pulse_max]` whenever the profile is well-formed; the
process-invocation `set_servo_target` validates non-negativity only and
sends the pulse unclamped. -/
theorem claim_C2 (p : Profile) (channel position : Int)
    (hp : p.pulse_min ≤ p.pulse_max) :
    (∃ sent : Int,
      MaestroServoController.set_position true p channel position =
        Except.ok (Cmd.servo channel sent) ∧
      p.pulse_min ≤ sent ∧ sent ≤ p.pulse_max) ∧
    (0 ≤ channel → 0 ≤ position →
      Controller.set_servo_target channel position true =
        Except.ok (Cmd.servo channel position)) := by
  constructor
  · refine ⟨max p.pulse_min (min p.pulse_max position), ?_, le_max_left _ _, ?_⟩
    · rfl
    · exact max_le hp (min_le_left _ _)
  · intro hc hpos
    exact Controller.set_servo_target_ok hc hpos

/-- Witness for C2 (amended): standard profile, position 9000 is clamped to
8000 by `set_position`, while the linux driver sends 9000 raw. -/
theorem claim_C2_witness :
    (∃ sent : Int,
      MaestroServoController.set_position true ⟨4000, 6000, 8000⟩ 0 9000 =
        Except.ok (Cmd.servo 0 sent) ∧
      (4000 : Int) ≤ sent ∧ sent ≤ 8000) ∧
    ((0 : Int) ≤ 0 → (0 : Int) ≤ 9000 →
      Controller.set_servo_target 0 9000 true = Except.ok (Cmd.servo 0 9000)) :=
  claim_C2 ⟨4000, 6000, 8000⟩ 0 9000 (by norm_num)

/-- Counterexample for C3: `move_step` has no try/finally, so an interrupt
during the `time.sleep` wait escapes before the stop is sent: on channel 0,
direction "cw", full speed, duration 1, the interrupted run sends only the
clockwise move command and no stop command. -/
theorem claim_C3_counterexample :
    Controller.move_step 0 (some "cw") (SpeedArg.num 1) (some 1) true =
      ([Cmd.servo 0 4000], some PyErr.interrupted) ∧
    ¬ Cmd.servo 0 Controller.STOP_TARGET ∈
      (Controller.move_step 0 (some "cw") (SpeedArg.num 1) (some 1) true).1 := by
  have hd : pyLower (pyStrip "cw") = "cw" := by decide
  have hcw : Controller.move_cw 0 (SpeedArg.num 1) = Except.ok (Cmd.servo 0 4000) := by
    rw [Controller.move_cw_ok 0 (SpeedArg.num 1) (by norm_num),
      Controller.scaled_target_full _ _ _ Controller.clamp_coerce_one]
    rfl
  have hmain : Controller.move_step 0 (some "cw") (SpeedArg.num 1) (some 1) true =
      ([Cmd.servo 0 4000], some PyErr.interrupted) := by
    simp only [Controller.move_step, hd]
    norm_num [hcw]
  refine ⟨hmain, ?_⟩
  rw [hmain]
  decide

/-- C3 (amended): for every valid direction token and valid channel, an
uninterrupted `move_step` run sends the move command and then the stop
command; the stop guarantee does not extend to an interrupted wait (there
is no scoped cleanup — see the counterexample). -/
theorem claim_C3 (channel : Int) (d : String) (speed : SpeedArg)
    (duration : Option Rat) (hch : 0 ≤ channel)
    (hd : pyLower (pyStrip d) = "cw" ∨ pyLower (pyStrip d) = "clockwise" ∨
          pyLower (pyStrip d) = "ccw" ∨ pyLower (pyStrip d) = "counterclockwise" ∨
          pyLower (pyStrip d) = "counter-clockwise") :
    ∃ c : Cmd, Controller.move_step channel (some d) speed duration false =
      ([c, Cmd.servo channel Controller.STOP_TARGET], Option.none) := by
  have hstop := Controller.stop_ok channel hch
  rcases hd with hd | hd | hd | hd | hd
  · refine ⟨Cmd.servo channel
      (Controller.scaled_target Controller.STOP_TARGET Controller.FULL_CW_TARGET speed), ?_⟩
    simp only [Controller.move_step, hd]
    simp [Controller.move_cw_ok channel speed hch, hstop]
  · refine ⟨Cmd.servo channel
      (Controller.scaled_target Controller.STOP_TARGET Controller.FULL_CW_TARGET speed), ?_⟩
    simp only [Controller.move_step, hd]
    simp [Controller.move_cw_ok channel speed hch, hstop]
  · refine ⟨Cmd.servo channel
      (Controller.scaled_target Controller.STOP_TARGET Controller.FULL_CCW_TARGET speed), ?_⟩
    simp only [Controller.move_step, hd]
    simp [Controller.move_ccw_ok channel speed hch, hstop]
  · refine ⟨Cmd.servo channel
      (Controller.scaled_target Controller.STOP_TARGET Controller.FULL_CCW_TARGET speed), ?_⟩
    simp only [Controller.move_step, hd]
    simp [Controller.move_ccw_ok channel speed hch, hstop]
  · refine ⟨Cmd.servo channel
      (Controller.scaled_target Controller.STOP_TARGET Controller.FULL_CCW_TARGET speed), ?_⟩
    simp only [Controller.move_step, hd]
    simp [Controller.move_ccw_ok channel speed hch, hstop]

/-- Witness for C3 (amended): channel 0, direction "cw", full speed,
duration 1, no interrupt: the trace ends with the stop command. -/
theorem claim_C3_witness :
    ∃ c : Cmd, Controller.move_step 0 (some "cw") (SpeedArg.num 1) (some 1) false =
      ([c, Cmd.servo 0 Controller.STOP_TARGET], Option.none) :=
  claim_C3 0 "cw" (SpeedArg.num 1) (some 1) (by norm_num) (Or.inl (by decide))



/-- C4 (code bug): the loop of `main` initializes `last_movement` once,
before the loop, and never reassigns it after issuing movement commands, so
with `--delay` 1/10 and cycles at times 15/100, 18/100 and 30/100 after the
start, all three cycles actuate — the cycles at 15/100 and 18/100 are only
3/100 < 1/10 apart, yet neither is suppressed, contradicting the claimed
once-per-`min_interval` rate limit. -/
theorem claim_C4 :
    ControlWaterGun.actuationTimes (1/10) 0 [15/100, 18/100, 30/100] =
      [15/100, 18/100, 30/100] ∧
    (18/100 : Rat) - 15/100 < 1/10 := by
  constructor
  · norm_num [ControlWaterGun.actuationTimes, ControlWaterGun.cycle, List.foldl]
  · norm_num

/-- Counterexample for C5: `stop_all` takes no channel-count argument
(always `range(24)`), and with a backend whose `setTarget` raises on
channel 5 the sweep aborts: only channels 0..5 are touched — channel 23
never receives its stop command — and the sweep reports failure. -/
theorem claim_C5_counterexample :
    (MaestroServoController.stop_all true (fun c => decide (c ≠ 5))).1 =
      [0, 1, 2, 3, 4, 5] ∧
    (MaestroServoController.stop_all true (fun c => decide (c ≠ 5))).2 = false ∧
    ¬ 23 ∈ (MaestroServoController.stop_all true (fun c => decide (c ≠ 5))).1 := by
  decide

/-- C5 (amended): when connected and every backend call succeeds,
`stop_all` issues exactly one stop per channel 0..23, in order (the channel
count is fixed at 24, not a parameter); a backend failure aborts the sweep
(see the counterexample). -/
theorem claim_C5 (backend : Nat → Bool) (h : ∀ c, backend c = true) :
    MaestroServoController.stop_all true backend = (List.range 24, true) := by
  unfold MaestroServoController.stop_all
  rw [if_neg (by simp)]
  exact MaestroServoController.sweep_all_ok backend h _

/-- Witness for C5 (amended): an always-succeeding backend receives the
full 24-channel sweep. -/
theorem claim_C5_witness :
    MaestroServoController.stop_all true (fun _ => true) = (List.range 24, true) :=
  claim_C5 (fun _ => true) (fun _ => rfl)

/-- Counterexample for C6: the serial controller rejects out-of-range
speeds instead of clamping them — `rotate` with speed 150 raises
`ValueError` (and sends nothing). -/
theorem claim_C6_counterexample :
    MaestroServoController.rotate true (MaestroServoController.mkProfile "standard")
      0 1 150 = Except.error PyErr.valueError := rfl

/-- C6 (amended): in the process-invocation driver the speed is clamped
into [0, 1] and never rejected — speed 3/2 commands the same pulse as
speed 1, and speed -3/10 the same as speed 0, for both directions and
every channel; the serial `rotate` instead validates speed in [0, 100]
and raises on out-of-range speed (see the counterexample). -/
theorem claim_C6 (channel : Int) :
    Controller.move_cw channel (SpeedArg.num (3/2)) =
      Controller.move_cw channel (SpeedArg.num 1) ∧
    Controller.move_cw channel (SpeedArg.num (-3/10)) =
      Controller.move_cw channel (SpeedArg.num 0) ∧
    Controller.move_ccw channel (SpeedArg.num (3/2)) =
      Controller.move_ccw channel (SpeedArg.num 1) ∧
    Controller.move_ccw channel (SpeedArg.num (-3/10)) =
      Controller.move_ccw channel (SpeedArg.num 0) := by
  have h1 : ∀ stop full : Int,
      Controller.scaled_target stop full (SpeedArg.num (3/2)) =
        Controller.scaled_target stop full (SpeedArg.num 1) := by
    intro stop full
    unfold Controller.scaled_target
    norm_num [Controller.clamp01, Controller.coerce_speed]
  have h2 : ∀ stop full : Int,
      Controller.scaled_target stop full (SpeedArg.num (-3/10)) =
        Controller.scaled_target stop full (SpeedArg.num 0) := by
    intro stop full
    unfold Controller.scaled_target
    norm_num [Controller.clamp01, Controller.coerce_speed]
  refine ⟨?_, ?_, ?_, ?_⟩ <;>
    simp only [Controller.move_cw, Controller.move_ccw, h1, h2]

/-- C7 (confirmed): for a fixed direction the computed pulse is monotone in
the clamped speed — non-decreasing toward `full` when `stop ≤ full`,
non-increasing when `full ≤ stop` — and speed 0 yields exactly the neutral
target: `move_cw` and `move_ccw` at speed 0 send the same command as
`stop`, for every channel. -/
theorem claim_C7 (stop full : Int) (s₁ s₂ : Rat) (h : s₁ ≤ s₂) :
    (stop ≤ full →
      Controller.scaled_target stop full (SpeedArg.num s₁) ≤
        Controller.scaled_target stop full (SpeedArg.num s₂)) ∧
    (full ≤ stop →
      Controller.scaled_target stop full (SpeedArg.num s₂) ≤
        Controller.scaled_target stop full (SpeedArg.num s₁)) ∧
    Controller.scaled_target stop full (SpeedArg.num 0) = stop ∧
    (∀ channel : Int,
      Controller.move_cw channel (SpeedArg.num 0) = Controller.stop channel ∧
      Controller.move_ccw channel (SpeedArg.num 0) = Controller.stop channel) := by
  have hms : Controller.clamp01 (Controller.coerce_speed (SpeedArg.num s₁)) ≤
      Controller.clamp01 (Controller.coerce_speed (SpeedArg.num s₂)) :=
    Controller.clamp01_mono h
  refine ⟨fun hsf => ?_, fun hfs => ?_, Controller.scaled_target_zero stop full,
    fun channel => ⟨?_, ?_⟩⟩
  · apply pyRound_mono
    have hc : (0 : Rat) ≤ (full : Rat) - (stop : Rat) := by
      have : (stop : Rat) ≤ (full : Rat) := by exact_mod_cast hsf
      linarith
    nlinarith
  · apply pyRound_mono
    have hc : (full : Rat) - (stop : Rat) ≤ 0 := by
      have : (full : Rat) ≤ (stop : Rat) := by exact_mod_cast hfs
      linarith
    nlinarith
  · rw [Controller.move_cw, Controller.scaled_target_zero, Controller.stop]
  · rw [Controller.move_ccw, Controller.scaled_target_zero, Controller.stop]

/-- Witness for C7 at the constants of the driver: neutral 5900,
counter-clockwise extreme 8000, speeds 1/2 ≤ 1. -/
theorem claim_C7_witness :
    ((5900 : Int) ≤ 8000 →
      Controller.scaled_target 5900 8000 (SpeedArg.num (1/2)) ≤
        Controller.scaled_target 5900 8000 (SpeedArg.num 1)) ∧
    ((8000 : Int) ≤ 5900 →
      Controller.scaled_target 5900 8000 (SpeedArg.num 1) ≤
        Controller.scaled_target 5900 8000 (SpeedArg.num (1/2))) ∧
    Controller.scaled_target 5900 8000 (SpeedArg.num 0) = 5900 ∧
    (∀ channel : Int,
      Controller.move_cw channel (SpeedArg.num 0) = Controller.stop channel ∧
      Controller.move_ccw channel (SpeedArg.num 0) = Controller.stop channel) :=
  claim_C7 5900 8000 (1/2) 1 (by norm_num)

/-- C8 (confirmed): with validation on, a negative channel or a negative
pulse makes `set_servo_target` raise `ValueError` synchronously, and zero
backend commands are issued. -/
theorem claim_C8 (channel target : Int) (h : channel < 0 ∨ target < 0) :
    Controller.set_servo_target channel target true = Except.error PyErr.valueError ∧
    Controller.sentCmds (Controller.set_servo_target channel target true) = [] := by
  have he : Controller.set_servo_target channel target true =
      Except.error PyErr.valueError := by
    unfold Controller.set_servo_target
    split_ifs with h1 h2
    · rfl
    · rfl
    · simp only [true_and] at h1 h2
      omega
  exact ⟨he, by rw [he]; rfl⟩

/-- Witness for C8: channel -1 with a valid pulse is rejected before any
backend interaction. -/
theorem claim_C8_witness :
    Controller.set_servo_target (-1) 6000 true = Except.error PyErr.valueError ∧
    Controller.sentCmds (Controller.set_servo_target (-1) 6000 true) = [] :=
  claim_C8 (-1) 6000 (Or.inl (by norm_num))

/-- C10 (confirmed): a `None` or non-convertible speed is silently
replaced by 1.0, so the move helpers command the full-speed target of
their direction — never a fault, never the neutral target. -/
theorem claim_C10 (channel : Int) (h : 0 ≤ channel) :
    Controller.move_cw channel SpeedArg.none =
      Except.ok (Cmd.servo channel Controller.FULL_CW_TARGET) ∧
    Controller.move_cw channel SpeedArg.nonNumeric =
      Except.ok (Cmd.servo channel Controller.FULL_CW_TARGET) ∧
    Controller.move_ccw channel SpeedArg.none =
      Except.ok (Cmd.servo channel Controller.FULL_CCW_TARGET) ∧
    Controller.move_ccw channel SpeedArg.nonNumeric =
      Except.ok (Cmd.servo channel Controller.FULL_CCW_TARGET) ∧
    Controller.FULL_CW_TARGET ≠ Controller.STOP_TARGET ∧
    Controller.FULL_CCW_TARGET ≠ Controller.STOP_TARGET := by
  refine ⟨?_, ?_, ?_, ?_, by decide, by decide⟩
  · rw [Controller.move_cw_ok channel SpeedArg.none h,
      Controller.scaled_target_full _ _ _ Controller.clamp_coerce_none]
  · rw [Controller.move_cw_ok channel SpeedArg.nonNumeric h,
      Controller.scaled_target_full _ _ _ Controller.clamp_coerce_nonNumeric]
  · rw [Controller.move_ccw_ok channel SpeedArg.none h,
      Controller.scaled_target_full _ _ _ Controller.clamp_coerce_none]
  · rw [Controller.move_ccw_ok channel SpeedArg.nonNumeric h,
      Controller.scaled_target_full _ _ _ Controller.clamp_coerce_nonNumeric]

/-- Witness for C10 at channel 0. -/
theorem claim_C10_witness :
    Controller.move_cw 0 SpeedArg.none =
      Except.ok (Cmd.servo 0 Controller.FULL_CW_TARGET) ∧
    Controller.move_cw 0 SpeedArg.nonNumeric =
      Except.ok (Cmd.servo 0 Controller.FULL_CW_TARGET) ∧
    Controller.move_ccw 0 SpeedArg.none =
      Except.ok (Cmd.servo 0 Controller.FULL_CCW_TARGET) ∧
    Controller.move_ccw 0 SpeedArg.nonNumeric =
      Except.ok (Cmd.servo 0 Controller.FULL_CCW_TARGET) ∧
    Controller.FULL_CW_TARGET ≠ Controller.STOP_TARGET ∧
    Controller.FULL_CCW_TARGET ≠ Controller.STOP_TARGET :=
  claim_C10 0 (by norm_num)
